import Mathlib

/-!
Verification of the data-platform repository's ADP headcount pipeline and
ClickUp billing scripts, as a shallow embedding in Lean.

Dates are modelled as proleptic Gregorian ordinals (the representation
underlying Python's `datetime`): day 1 is 0001-01-01, which is a Monday, so
`weekday d = (d - 1) % 7` with Monday = 0, matching `datetime.weekday()`.
-/

instance {ε α : Type} [DecidableEq ε] [DecidableEq α] : DecidableEq (Except ε α) := fun x y =>
  match x, y with
  | .ok a, .ok b =>
    if h : a = b then isTrue (by rw [h])
    else isFalse (fun hh => by cases hh; exact h rfl)
  | .error a, .error b =>
    if h : a = b then isTrue (by rw [h])
    else isFalse (fun hh => by cases hh; exact h rfl)
  | .ok _, .error _ => isFalse (fun h => by cases h)
  | .error _, .ok _ => isFalse (fun h => by cases h)

namespace DataPlatform

/-- Python `datetime.weekday()`: Monday = 0, ..., Sunday = 6. -/
def weekday (d : Int) : Int := (d - 1) % 7

/-- `src/transformations/adp/date_utils.py`, `get_monday_dates`:
`days_since_monday := target.weekday()`, `current_monday := target - days`,
`previous_monday := current_monday - 7`.  The `strftime` rendering to a
`YYYY-MM-DD` string is abstracted: the function returns the date values. -/
def get_monday_dates (target_date : Int) : Int × Int :=
  let days_since_monday := weekday target_date
  let current_monday := target_date - days_since_monday
  let previous_monday := current_monday - 7
  (current_monday, previous_monday)

/-- Gregorian leap-year test, as in Python's `calendar.isleap`. -/
def isLeap (y : Nat) : Bool := y % 4 == 0 && (y % 100 != 0 || y % 400 == 0)

/-- Days in month `m` of year `y` (1-based months). -/
def daysInMonth (y m : Nat) : Nat :=
  if m = 2 then (if isLeap y then 29 else 28)
  else if m = 4 ∨ m = 6 ∨ m = 9 ∨ m = 11 then 30
  else 31

/-- Days in year `y` strictly before month `m`. -/
def daysBeforeMonth (y m : Nat) : Nat :=
  (List.range (m - 1)).foldl (fun acc i => acc + daysInMonth y (i + 1)) 0

/-- Proleptic Gregorian ordinal of (y, m, d); 0001-01-01 has ordinal 1.
This is the arithmetic of CPython's `datetime._ymd2ord`. -/
def ymd2ord (y m d : Nat) : Int :=
  ((365 * (y - 1) + (y - 1) / 4 - (y - 1) / 100 + (y - 1) / 400
    + daysBeforeMonth y m + d : Nat) : Int)

/-- Inverse of `ymd2ord` (civil-from-days algorithm); used to model
`strftime('%Y-%m-%d')` rendering of a date. -/
def ord2ymd (n : Int) : Nat × Nat × Nat :=
  let z := (n + 305).toNat
  let era := z / 146097
  let doe := z % 146097
  let yoe := (doe - doe / 1460 + doe / 36524 - doe / 146096) / 365
  let y := yoe + era * 400
  let doy := doe - (365 * yoe + yoe / 4 - yoe / 100)
  let mp := (5 * doy + 2) / 153
  let d := doy - (153 * mp + 2) / 5 + 1
  let m := if mp < 10 then mp + 3 else mp - 9
  (if m ≤ 2 then y + 1 else y, m, d)

/-- Zero-pad a number to 2 digits. -/
def pad2 (n : Nat) : String := if n < 10 then "0" ++ toString n else toString n

/-- Zero-pad a number to 4 digits. -/
def pad4 (n : Nat) : String :=
  if n < 10 then "000" ++ toString n
  else if n < 100 then "00" ++ toString n
  else if n < 1000 then "0" ++ toString n
  else toString n

/-- Model of `strftime('%Y-%m-%d')` on a date ordinal. -/
def formatOrdinal (n : Int) : String :=
  let ymd := ord2ymd n
  pad4 ymd.1 ++ "-" ++ pad2 ymd.2.1 ++ "-" ++ pad2 ymd.2.2

/-- Digits of a character list as a number, `none` if empty or non-digit. -/
def digitsToNat : List Char → Option Nat
  | [] => none
  | cs =>
    if cs.all (fun c => c.isDigit) then
      some (cs.foldl (fun acc c => acc * 10 + (c.toNat - '0'.toNat)) 0)
    else none

/-- Split a character list on a separator character (Python `str.split(sep)`):
`"" → [""]`, `"a:b" → ["a","b"]`, `"::" → ["","",""]`. -/
def splitCharsAux (sep : Char) : List Char → List Char → List (List Char)
  | [], acc => [acc.reverse]
  | c :: rest, acc =>
    if c = sep then acc.reverse :: splitCharsAux sep rest []
    else splitCharsAux sep rest (c :: acc)

/-- Model of Python `str.split(sep)` for a one-character separator. -/
def pySplit (sep : Char) (s : String) : List String :=
  (splitCharsAux sep s.data []).map String.mk

/-- Model of `datetime.strptime(s, '%Y-%m-%d')`: `none` models the
`ValueError` path of an unparseable string. -/
def parseAdpDate (s : String) : Option Int :=
  match (splitCharsAux '-' s.data []).map digitsToNat with
  | [some y, some m, some d] =>
    if 1 ≤ y ∧ y ≤ 9999 ∧ 1 ≤ m ∧ m ≤ 12 ∧ 1 ≤ d ∧ d ≤ daysInMonth y m then
      some (ymd2ord y m d)
    else none
  | _ => none

/-- The check sequence of `validate_monday_dates` after both strings have
been parsed, in source order; `.error` models the raised `ValueError`. -/
def validate_monday_ordinals (snapshot report : Int) : Except String Bool :=
  if weekday snapshot ≠ 0 then
    .error "Snapshot date is not a Monday"
  else if weekday report ≠ 0 then
    .error "Report date is not a Monday"
  else if report ≥ snapshot then
    .error "Report date should be before snapshot date"
  else if snapshot - report ≠ 7 then
    .error "Report and snapshot dates should be exactly 7 days apart"
  else
    .ok true

/-- `src/transformations/adp/date_utils.py`, `validate_monday_dates`:
parses both strings with `strptime` (raising on failure), then runs the
business-rule checks. -/
def validate_monday_dates (snapshot_date report_date : String) : Except String Bool :=
  match parseAdpDate snapshot_date with
  | none => .error "time data does not match format"
  | some s =>
    match parseAdpDate report_date with
    | none => .error "time data does not match format"
    | some r => validate_monday_ordinals s r

/-! ## Python string primitives

Models of the Python built-ins used by the billing and ADP scripts.
`str.strip`, `str.split`, `int(...)` and `float(...)` are modelled over
character lists with structural recursion so every theorem below can be
evaluated by the kernel.  Unicode-only whitespace, underscore digit
separators and `inf`/`nan` float literals are outside the inputs these
pipelines see and are not modelled. -/

/-- Characters stripped by Python `str.strip()` (ASCII whitespace). -/
def isPySpace (c : Char) : Bool :=
  c = ' ' || c = '\t' || c = '\n' || c = '\r' || c = '\x0b' || c = '\x0c'

/-- Model of Python `str.strip()`. -/
def pyStrip (s : String) : String :=
  String.mk (((s.data.dropWhile isPySpace).reverse.dropWhile isPySpace).reverse)

/-- Model of Python `int(s)`: optional surrounding whitespace, optional
sign, then decimal digits. -/
def parsePyInt (s : String) : Option Int :=
  match (pyStrip s).data with
  | '+' :: rest => (digitsToNat rest).map Int.ofNat
  | '-' :: rest => (digitsToNat rest).map (fun n => -(n : Int))
  | cs => (digitsToNat cs).map Int.ofNat

/-- Mantissa of a Python float literal: `d+`, `d+.d*`, `.d+` or `d*.d+`. -/
def parsePyMantissa (cs : List Char) : Option ℚ :=
  match splitCharsAux '.' cs [] with
  | [i] => (digitsToNat i).map (fun n => (n : ℚ))
  | [i, f] =>
    match digitsToNat (i ++ f) with
    | some n => some ((n : ℚ) / (10 : ℚ) ^ f.length)
    | none => none
  | _ => none

/-- Exponent of a Python float literal: optional sign then digits. -/
def parsePyExponent (cs : List Char) : Option Int :=
  match cs with
  | '+' :: rest => (digitsToNat rest).map Int.ofNat
  | '-' :: rest => (digitsToNat rest).map (fun n => -(n : Int))
  | _ => (digitsToNat cs).map Int.ofNat

/-- Model of Python `float(s)` for decimal literals with optional sign,
decimal point and exponent. -/
def parsePyFloat (s : String) : Option ℚ :=
  let t := (pyStrip s).data
  let signed : Bool × List Char :=
    match t with
    | '+' :: rest => (false, rest)
    | '-' :: rest => (true, rest)
    | cs => (false, cs)
  let valOf : Option ℚ :=
    match splitCharsAux 'e' (signed.2.map (fun c => if c = 'E' then 'e' else c)) [] with
    | [mant] => parsePyMantissa mant
    | [mant, ex] =>
      match parsePyMantissa mant, parsePyExponent ex with
      | some m, some e => some (m * (10 : ℚ) ^ e)
      | _, _ => none
    | _ => none
  valOf.map (fun q => if signed.1 then -q else q)

/-- Round-half-to-even on a rational, as Python's `round` does at the
value level. -/
def roundHalfEven (q : ℚ) : Int :=
  let f := ⌊q⌋
  let r := q - f
  if r < 1 / 2 then f
  else if 1 / 2 < r then f + 1
  else if f % 2 = 0 then f else f + 1

/-- Model of Python `round(x, 2)`. -/
def pyRound2 (q : ℚ) : ℚ := ((roundHalfEven (q * 100) : ℚ)) / 100

/-- `src/scripts/billing/process_clickup_billing.py`,
`parse_duration_to_decimal`.  The input is `none` when `pd.isna` holds
(a missing cell).  Each `return 0.0` models the warn-and-default path. -/
def parse_duration_to_decimal (duration : Option String) : ℚ :=
  match duration with
  | none => 0
  | some s =>
    if s = "" then 0
    else
      let t := pyStrip s
      let parts := pySplit ':' t
      if 2 ≤ parts.length then
        match parsePyInt (parts.getD 0 ""), parsePyInt (parts.getD 1 "") with
        | some hours, some minutes => pyRound2 ((hours : ℚ) + (minutes : ℚ) / 60)
        | _, _ => 0
      else
        match parsePyFloat t with
        | some x => x
        | none => 0

/-! ## DataFrame model

A pandas `DataFrame` is modelled column-major: a list of named columns of
cell values.  Cells are `Value`s: strings, dates (ordinals), integers, or
null (`NaN`/`NaT`/`None` are not distinguished; the code never does). -/

inductive Value where
  | vNull
  | vStr (s : String)
  | vInt (n : Int)
  | vDate (d : Int)
deriving DecidableEq, Repr

abbrev DFCol := String × List Value
abbrev DataFrame := List DFCol

/-- Number of rows (pandas frames are rectangular; the first column's
length stands for the frame's row count). -/
def nrows (df : DataFrame) : Nat :=
  match df with
  | [] => 0
  | c :: _ => c.2.length

/-- The value lists of all columns with the given name. -/
def colVals (df : DataFrame) (n : String) : List (List Value) :=
  (df.filter (fun c => c.1 = n)).map (fun c => c.2)

/-- pandas `astype(str)` at cell level: strings pass through, a missing
value renders as `"nan"`, integers and dates render as their `str()`. -/
def pyStr (v : Value) : String :=
  match v with
  | .vStr s => s
  | .vNull => "nan"
  | .vInt n => toString n
  | .vDate d => formatOrdinal d

/-- Python `str.zfill(w)`: left-fill with `'0'` up to width `w`, inserting
the padding after a leading `'+'`/`'-'` sign. -/
def pyZfill (w : Nat) (s : String) : String :=
  if w ≤ s.length then s
  else
    match s.data with
    | c :: rest =>
      if c = '+' ∨ c = '-' then String.mk (c :: (List.replicate (w - s.length) '0' ++ rest))
      else String.mk (List.replicate (w - s.length) '0' ++ s.data)
    | [] => String.mk (List.replicate w '0')

/-- Python `s[:n]`. -/
def pyTake (n : Nat) (s : String) : String := String.mk (s.data.take n)

/-- The per-cell strip lambda of `clean_adp_data`:
`x.strip() if isinstance(x, str) else x`. -/
def stripValue : Value → Value
  | .vStr s => .vStr (pyStrip s)
  | v => v

/-- `clean_adp_data` step 1: strip whitespace from every string cell. -/
def stripStep (df : DataFrame) : DataFrame :=
  df.map (fun c => (c.1, c.2.map stripValue))

/-- `clean_adp_data` step 2: drop the duplicate
`"Previous Termination Date.1"` column if present. -/
def dropStep (df : DataFrame) : DataFrame :=
  df.filter (fun c => c.1 ≠ "Previous Termination Date.1")

/-- The fixed source-to-canonical column rename table of `clean_adp_data`. -/
def adp_column_mapping : List (String × String) :=
  [("File Number", "file_number"),
   ("Payroll Name", "payroll_name"),
   ("Hire Date", "hire_date"),
   ("Rehire Date", "rehire_date"),
   ("Previous Termination Date", "previous_termination_date"),
   ("Termination Date", "termination_date"),
   ("Termination Reason Description", "termination_reason"),
   ("Position Status", "position_status"),
   ("Leave of Absence Start Date", "leave_of_absence_start_date"),
   ("Leave of Absence Return Date", "leave_of_absence_return_date"),
   ("Home Department Code", "home_department_code"),
   ("Home Department Description", "home_department_description"),
   ("Payroll Company Code", "payroll_company_code"),
   ("Position ID", "position_id"),
   ("Clock Full Code", "client_code"),
   ("Clock Full Description", "client"),
   ("Regular Pay Rate Amount", "regular_pay_rate"),
   ("Recruited by", "recruited_by"),
   ("Business Unit Description", "business_unit"),
   ("Requisition Key", "requisition_key"),
   ("Personal Contact: Personal Email", "email"),
   ("Associate ID", "adp_id"),
   ("Requisition_id", "requisition_id"),
   ("applicant_id", "applicant_id"),
   ("Regular Hours Total", "regular_hours"),
   ("Overtime Hours Total", "ot_hours"),
   ("Other hours", "pto_sick_hours"),
   ("Holiday", "holiday_hours"),
   ("Voluntary/Involuntary Termination Flag", "voluntary_involuntary_flag"),
   ("Personal Contact: Home Phone", "home_phone")]

/-- `clean_adp_data` step 3: rename the columns that exist, leaving
others untouched (pandas `rename` semantics). -/
def renameStep (df : DataFrame) : DataFrame :=
  df.map (fun c =>
    match adp_column_mapping.lookup c.1 with
    | some n => (n, c.2)
    | none => c)

/-- Apply `f` to every cell of every column named `n`; identity when no
column has that name (the `if col in cleaned_df.columns` guard). -/
def mapColNamed (n : String) (f : Value → Value) (df : DataFrame) : DataFrame :=
  df.map (fun c => if c.1 = n then (c.1, c.2.map f) else c)

/-- `clean_adp_data` step 4:
`df['home_department_code'].astype(str).str.zfill(6)`. -/
def deptPadStep (df : DataFrame) : DataFrame :=
  mapColNamed "home_department_code" (fun v => .vStr (pyZfill 6 (pyStr v))) df

/-- Scalar column assignment `df[name] = v`: replaces the column if
present (broadcast to every row), otherwise appends it. -/
def setColStep (n : String) (v : Value) (df : DataFrame) : DataFrame :=
  if df.any (fun c => c.1 = n) then
    df.map (fun c => if c.1 = n then (c.1, List.replicate c.2.length v) else c)
  else
    df ++ [(n, List.replicate (nrows df) v)]

/-- `pd.to_datetime(x, errors='coerce').dt.date` at cell level: string
cells parse as ISO dates or coerce to null, date cells pass through,
everything else coerces to null.  (pandas also auto-detects further string
formats and reads raw integers as epoch stamps; the pipeline's inputs are
ISO strings or dates, so those branches are collapsed into the null
coercion.) -/
def toDateValue (v : Value) : Value :=
  match v with
  | .vStr s =>
    match parseAdpDate s with
    | some d => .vDate d
    | none => .vNull
  | .vDate d => .vDate d
  | _ => .vNull

/-- The fixed date-typed column list of `clean_adp_data`. -/
def adp_date_columns : List String :=
  ["hire_date", "rehire_date", "previous_termination_date", "termination_date", "snapshot_date"]

/-- `clean_adp_data` step 6: coerce the date columns. -/
def dateCoerceStep (df : DataFrame) : DataFrame :=
  adp_date_columns.foldl (fun acc col => mapColNamed col toDateValue acc) df

/-- `pd.to_numeric(x, errors='coerce').astype('Int64')` at cell level:
numeric strings become integers, anything unparseable (or a non-integral
numeric, which `astype('Int64')` would reject) coerces to null. -/
def toIntValue (v : Value) : Value :=
  match v with
  | .vStr s =>
    match parsePyFloat s with
    | some q => if q.den = 1 then .vInt q.num else .vNull
    | none => .vNull
  | .vInt n => .vInt n
  | _ => .vNull

/-- The fixed integer-typed column list of `clean_adp_data`. -/
def adp_integer_columns : List String := ["requisition_id", "applicant_id"]

/-- `clean_adp_data` step 7: coerce the identifier columns. -/
def intCoerceStep (df : DataFrame) : DataFrame :=
  adp_integer_columns.foldl (fun acc col => mapColNamed col toIntValue acc) df

/-- `clean_adp_data` step 8:
`df['home_department_code'].astype(str).str[:6].str.zfill(6)`. -/
def deptTruncPadStep (df : DataFrame) : DataFrame :=
  mapColNamed "home_department_code" (fun v => .vStr (pyZfill 6 (pyTake 6 (pyStr v)))) df

/-- The end-to-end transformation the two department-code steps apply to
one cell's string: `zfill(6)`, then `[:6]`, then `zfill(6)` again. -/
def deptCleanStr (s : String) : String := pyZfill 6 (pyTake 6 (pyZfill 6 s))

/-- `src/transformations/adp/transform.py`, `clean_adp_data`, as the pure
composition of its steps in source order.  `today` supplies the
`datetime.now()` default when no snapshot date is passed. -/
def clean_adp_data (df : DataFrame) (snapshot_date : Option String) (today : Int) : DataFrame :=
  let snap := snapshot_date.getD (formatOrdinal today)
  deptTruncPadStep (intCoerceStep (dateCoerceStep
    (setColStep "snapshot_date" (.vStr snap)
      (deptPadStep (renameStep (dropStep (stripStep df)))))))

/-! ## Heap-level view of `clean_adp_data`

To state that `clean_adp_data` does not mutate its argument (it works on
`df.copy()` and every in-place operation targets the copy), the function is
replayed over an explicit store of DataFrame objects: `df.copy()` allocates
a fresh reference and each in-place step writes back through that
reference, exactly as the Python statements do. -/

abbrev Store := List DataFrame

def getRef (st : Store) (i : Nat) : DataFrame := st.getD i []

def setRef (st : Store) (i : Nat) (df : DataFrame) : Store := st.set i df

/-- `clean_adp_data` with its aliasing made explicit: `r` is the caller's
DataFrame reference; the returned reference holds the cleaned frame. -/
def clean_adp_data_heap (st : Store) (r : Nat) (snapshot_date : Option String)
    (today : Int) : Store × Nat :=
  let snap := snapshot_date.getD (formatOrdinal today)
  let rc := st.length
  let st1 := st ++ [getRef st r]
  let st2 := setRef st1 rc (stripStep (getRef st1 rc))
  let st3 := setRef st2 rc (dropStep (getRef st2 rc))
  let st4 := setRef st3 rc (renameStep (getRef st3 rc))
  let st5 := setRef st4 rc (deptPadStep (getRef st4 rc))
  let st6 := setRef st5 rc (setColStep "snapshot_date" (.vStr snap) (getRef st5 rc))
  let st7 := setRef st6 rc (dateCoerceStep (getRef st6 rc))
  let st8 := setRef st7 rc (intCoerceStep (getRef st7 rc))
  let st9 := setRef st8 rc (deptTruncPadStep (getRef st8 rc))
  (st9, rc)

/-! ## Validators -/

/-- `src/transformations/adp/extract.py`, `validate_adp_file_structure`. -/
def validate_adp_file_structure (df : DataFrame) : Except String Bool :=
  let required := ["File Number", "Payroll Name", "Hire Date", "Position Status",
                   "Home Department Code", "Clock Full Code", "Associate ID"]
  let missing := required.filter (fun c => ¬ df.any (fun col => col.1 = c))
  if missing.isEmpty then .ok true
  else .error "Missing required columns"

/-- `src/transformations/adp/transform.py`, `validate_cleaned_data`: fails
when a required canonical column is absent, or when a string department
code does not have length 6 (pandas `str.len()` of a non-string is `NaN`
and a `NaN != 6` filter row is dropped, so only string cells count). -/
def validate_cleaned_data (df : DataFrame) : Except String Bool :=
  let required := ["file_number", "adp_id", "snapshot_date"]
  let missing := required.filter (fun c => ¬ df.any (fun col => col.1 = c))
  if ¬ missing.isEmpty then .error "Missing required columns after cleaning"
  else if (colVals df "home_department_code").any (fun vs =>
      vs.any (fun v =>
        match v with
        | .vStr s => s.length ≠ 6
        | _ => false)) then
    .error "Found records with invalid department codes"
  else .ok true

/-! ## Headcount aggregation (`execute_headcount_calculation`)

The staging table is a list of rows of named cells; the SQL of
`src/transformations/adp/load.py` is modelled with SQL semantics:
three-valued predicates over nullable cells evaluate to "row excluded"
unless definitely true, `GROUP BY` puts SQL nulls in one group, and
`COUNT(DISTINCT adp_id)` counts distinct non-null values.  The `NOW()`
load timestamp is not part of the model. -/

abbrev DFRow := List (String × Value)

/-- Cell of row `r` in column `n` (`vNull` when absent, as for a table
column the insert did not populate). -/
def getCol (r : DFRow) (n : String) : Value :=
  ((r.filter (fun p => p.1 = n)).map (fun p => p.2)).headD .vNull

/-- `COALESCE` over two date cells: first non-null, read as a date. -/
def coalesceDate (a b : Value) : Option Int :=
  match a with
  | .vDate d => some d
  | .vNull =>
    match b with
    | .vDate d => some d
    | _ => none
  | _ => none

/-- The `WHERE` clause of the headcount query, in source order. -/
def headcountFilter (excluded : List String) (snap : Int) (r : DFRow) : Bool :=
  (getCol r "position_status" == Value.vStr "Active") &&
  (getCol r "file_number" != Value.vNull) &&
  (match getCol r "client_code" with
   | .vStr c => ¬ excluded.contains c
   | _ => false) &&
  (match coalesceDate (getCol r "rehire_date") (getCol r "hire_date"),
         getCol r "snapshot_date" with
   | some e, .vDate sd => e < sd
   | _, _ => false) &&
  (getCol r "snapshot_date" == Value.vDate snap)

/-- The `GROUP BY` key: `(home_department_code, home_department_description)`. -/
def rowKey (r : DFRow) : Value × Value :=
  (getCol r "home_department_code", getCol r "home_department_description")

/-- One inserted row of `silver.fact_active_headcount`. -/
structure SummaryRow where
  department_number : Value
  snapshot_date : Int
  report_date : Int
  active_count : Nat
deriving DecidableEq, Repr

/-- `COUNT(DISTINCT adp_id)` over a group of rows. -/
def distinctAdpCount (rows : List DFRow) : Nat :=
  (((rows.map (fun r => getCol r "adp_id")).filter (fun v => v != Value.vNull)).dedup).length

/-- Default of `adp.excluded_client_codes` in `load.py`. -/
def adp_excluded_codes : List String := ["01100"]

/-- `src/transformations/adp/load.py`, `execute_headcount_calculation`:
the `daily_active` CTE grouped count inserted into the summary table for
every group whose department code is not null. -/
def execute_headcount_calculation (bronze : List DFRow) (excluded : List String)
    (snap rep : Int) : List SummaryRow :=
  let qual := bronze.filter (headcountFilter excluded snap)
  let keys := (qual.map rowKey).dedup
  (keys.filter (fun k => k.1 != Value.vNull)).map (fun k =>
    { department_number := k.1
      snapshot_date := snap
      report_date := rep
      active_count := distinctAdpCount (qual.filter (fun r => rowKey r == k)) })

/-- The claim's wording of the headcount row filter: position status
Active, non-null file number, client code outside the exclusion set,
effective hire date (rehire if present else hire) strictly before the
row's own snapshot date, and snapshot date equal to the parameter. -/
def qualifiesSpec (excluded : List String) (snap : Int) (r : DFRow) : Prop :=
  getCol r "position_status" = Value.vStr "Active" ∧
  getCol r "file_number" ≠ Value.vNull ∧
  (∃ c, getCol r "client_code" = Value.vStr c ∧ c ∉ excluded) ∧
  (∃ e sd, coalesceDate (getCol r "rehire_date") (getCol r "hire_date") = some e ∧
    getCol r "snapshot_date" = Value.vDate sd ∧ e < sd) ∧
  getCol r "snapshot_date" = Value.vDate snap

/-! ## Billing (`process_clickup_billing.py`) -/

/-- One cleaned billing row as far as billing amounts are concerned. -/
structure BillingRow where
  client : String
  billableHours : ℚ
deriving DecidableEq

/-- A row after `calculate_billing_amounts`: the rate comes from
`df['Client'].map(rates)` (`none` models the `NaN` of an unmapped
client), the amount is `(hours * rate).round(2)` with `NaN` propagation. -/
structure BilledRow where
  client : String
  billableHours : ℚ
  billingRate : Option ℚ
  amount : Option ℚ
deriving DecidableEq

/-- `src/scripts/billing/process_clickup_billing.py`,
`calculate_billing_amounts`. -/
def calculate_billing_amounts (rows : List BillingRow) (rates : List (String × ℚ)) :
    List BilledRow :=
  rows.map (fun r =>
    let rate := rates.lookup r.client
    { client := r.client
      billableHours := r.billableHours
      billingRate := rate
      amount := rate.map (fun ra => pyRound2 (r.billableHours * ra)) })

/-- pandas column `sum()`: skips `NaN` cells. -/
def sumOpt (l : List (Option ℚ)) : ℚ := (l.filterMap id).sum

/-- `generate_summary_report`: `grand_total_amount = df['Amount'].sum()`. -/
def grand_total_amount (billed : List BilledRow) : ℚ :=
  sumOpt (billed.map (fun b => b.amount))

/-- `generate_summary_report`: the Amount column of
`df.groupby('Client').agg({'Amount': 'sum'}).round(2)`. -/
def total_by_client (billed : List BilledRow) : List (String × ℚ) :=
  ((billed.map (fun b => b.client)).dedup).map (fun c =>
    (c, pyRound2 (sumOpt ((billed.filter (fun b => b.client = c)).map (fun b => b.amount)))))

/-! ## Orchestrator (`adp_tenure_pipeline.py`, `main`)

The run is modelled as a function of the parsed CLI arguments, the current
date, the raw DataFrame read from the input file, and the database state
(bronze staging rows plus silver summary rows).  It returns the outcome,
the final database state, and the ordered trace of database effects.
Logging, the Markdown error journal and `sys.exit` are abstracted into the
outcome value. -/

structure PipelineArgs where
  snapshot_date : Option String
  report_date : Option String
  force : Bool
  skip_calculation : Bool
deriving DecidableEq, Repr

structure AdpDb where
  bronze : List DFRow
  silver : List SummaryRow
deriving DecidableEq, Repr

inductive PipelineEvent where
  | checkedBronze (count : Nat)
  | checkedSilver (count : Nat)
  | deletedSilver (date : Int) (count : Nat)
  | deletedBronze (date : Int) (count : Nat)
  | loadedBronze (count : Nat)
  | ranCalculation (count : Nat)
deriving DecidableEq, Repr

inductive PipelineOutcome where
  | success
  | warnedExisting
  | failed (msg : String)
deriving DecidableEq, Repr

/-- The date-resolution block of `main` (lines 107-122): both flags →
validate the given pair; snapshot flag only → recompute the report date as
snapshot minus 7 days and validate the pair; no snapshot flag →
`get_monday_dates()`.  A `strptime` failure on a flag is the raised
`ValueError`. -/
def resolve_pipeline_dates (snapshotArg reportArg : Option String) (today : Int) :
    Except String (Int × Int) :=
  match snapshotArg, reportArg with
  | some s, some r =>
    match parseAdpDate s, parseAdpDate r with
    | some sd, some rd => (validate_monday_ordinals sd rd).map (fun _ => (sd, rd))
    | _, _ => .error "time data does not match format"
  | some s, none =>
    match parseAdpDate s with
    | some sd => (validate_monday_ordinals sd (sd - 7)).map (fun _ => (sd, sd - 7))
    | none => .error "time data does not match format"
  | none, _ => .ok (get_monday_dates today)

/-- `check_existing_data(snapshot_date, 'bronze')`: `COUNT(*)` of staging
rows for the date. -/
def check_bronze (db : AdpDb) (d : Int) : Nat :=
  (db.bronze.filter (fun r => getCol r "snapshot_date" == Value.vDate d)).length

/-- `check_existing_data(snapshot_date, 'silver')`. -/
def check_silver (db : AdpDb) (d : Int) : Nat :=
  (db.silver.filter (fun s => s.snapshot_date == d)).length

/-- `delete_existing_data(snapshot_date, 'bronze')`. -/
def delete_bronze (db : AdpDb) (d : Int) : AdpDb :=
  { db with bronze := db.bronze.filter (fun r => !(getCol r "snapshot_date" == Value.vDate d)) }

/-- `delete_existing_data(snapshot_date, 'silver')`. -/
def delete_silver (db : AdpDb) (d : Int) : AdpDb :=
  { db with silver := db.silver.filter (fun s => !(s.snapshot_date == d)) }

/-- `df.to_sql(..., if_exists='append')`: the frame's rows as table rows. -/
def dfRows (df : DataFrame) : List DFRow :=
  (List.range (nrows df)).map (fun i => df.map (fun c => (c.1, c.2.getD i Value.vNull)))

/-- `src/transformations/pipelines/adp_tenure_pipeline.py`, `main`, after
argument parsing: resolve dates, extract/validate, transform/validate,
check existing rows, guard or force-delete, load bronze, optionally run
the silver calculation.  Any modelled exception becomes `.failed`. -/
def run_adp_pipeline (args : PipelineArgs) (today : Int) (raw_df : DataFrame)
    (db : AdpDb) : PipelineOutcome × AdpDb × List PipelineEvent :=
  match resolve_pipeline_dates args.snapshot_date args.report_date today with
  | .error e => (.failed e, db, [])
  | .ok (snap, rep) =>
    match validate_adp_file_structure raw_df with
    | .error e => (.failed e, db, [])
    | .ok _ =>
      let cleaned := clean_adp_data raw_df (some (formatOrdinal snap)) today
      match validate_cleaned_data cleaned with
      | .error e => (.failed e, db, [])
      | .ok _ =>
        let existingBronze := check_bronze db snap
        let existingSilver := check_silver db snap
        let ev0 := [PipelineEvent.checkedBronze existingBronze,
                    PipelineEvent.checkedSilver existingSilver]
        if (existingBronze > 0 || existingSilver > 0) && !args.force then
          (.warnedExisting, db, ev0)
        else
          let s1 : AdpDb × List PipelineEvent :=
            if args.force && existingSilver > 0 then
              (delete_silver db snap, [PipelineEvent.deletedSilver snap existingSilver])
            else (db, [])
          let s2 : AdpDb × List PipelineEvent :=
            if args.force && existingBronze > 0 then
              (delete_bronze s1.1 snap, s1.2 ++ [PipelineEvent.deletedBronze snap existingBronze])
            else s1
          let newRows := dfRows cleaned
          let db2 : AdpDb := { s2.1 with bronze := s2.1.bronze ++ newRows }
          let ev2 := ev0 ++ s2.2 ++ [PipelineEvent.loadedBronze newRows.length]
          if args.skip_calculation then (.success, db2, ev2)
          else
            let newSilver := execute_headcount_calculation db2.bronze adp_excluded_codes snap rep
            (.success, { db2 with silver := db2.silver ++ newSilver },
             ev2 ++ [PipelineEvent.ranCalculation newSilver.length])

/-! ## Concrete fixtures used by witnesses and counterexamples -/

/-- Concrete staging table for the C1 counterexample: two Active rows in
the same department code `000001` but with two different department
descriptions, distinct employees, both passing every filter for the
snapshot Monday 2024-01-15 (ordinal 738900). -/
def c1Staging : List DFRow :=
  [[("adp_id", Value.vStr "E1"), ("file_number", Value.vStr "1"),
    ("position_status", Value.vStr "Active"), ("client_code", Value.vStr "99999"),
    ("hire_date", Value.vDate 738893), ("rehire_date", Value.vNull),
    ("snapshot_date", Value.vDate 738900),
    ("home_department_code", Value.vStr "000001"),
    ("home_department_description", Value.vStr "Desc A")],
   [("adp_id", Value.vStr "E2"), ("file_number", Value.vStr "2"),
    ("position_status", Value.vStr "Active"), ("client_code", Value.vStr "99999"),
    ("hire_date", Value.vDate 738893), ("rehire_date", Value.vNull),
    ("snapshot_date", Value.vDate 738900),
    ("home_department_code", Value.vStr "000001"),
    ("home_department_description", Value.vStr "Desc B")]]

/-- Input fixture shared by the orchestrator witnesses: a one-row raw ADP
frame carrying every required source column. -/
def exRawDf : DataFrame :=
  [("File Number", [Value.vStr "123"]),
   ("Payroll Name", [Value.vStr "Doe, Jane"]),
   ("Hire Date", [Value.vDate 738893]),
   ("Position Status", [Value.vStr "Active"]),
   ("Home Department Code", [Value.vStr "123"]),
   ("Clock Full Code", [Value.vStr "99999"]),
   ("Associate ID", [Value.vStr "E1"])]

/-- Database fixture: one staging row and one summary row already present
for the snapshot Monday 2024-01-15 (ordinal 738900). -/
def exDb : AdpDb :=
  { bronze := [[("file_number", Value.vStr "999"), ("adp_id", Value.vStr "E9"),
                ("snapshot_date", Value.vDate 738900)]],
    silver := [{ department_number := Value.vStr "000001", snapshot_date := 738900,
                 report_date := 738893, active_count := 1 }] }

/-- Database-effect events of a trace. -/
def isDeleteEvent : PipelineEvent → Bool
  | .deletedSilver _ _ => true
  | .deletedBronze _ _ => true
  | _ => false

/-! ## Theorems -/

/-- C2: for every reference date, `get_monday_dates` returns
`(snapshot_date, report_date)` with `snapshot_date` the Monday of the
reference week (the reference itself when it is a Monday, otherwise the
reference minus its days since Monday) and `report_date` exactly 7 days
earlier; both results are Mondays. -/
theorem get_monday_dates_correct (t : Int) :
    (get_monday_dates t).1 = t - weekday t ∧
    (get_monday_dates t).2 = (get_monday_dates t).1 - 7 ∧
    weekday (get_monday_dates t).1 = 0 ∧
    weekday (get_monday_dates t).2 = 0 ∧
    (weekday t = 0 → (get_monday_dates t).1 = t) := by
  refine ⟨rfl, rfl, ?_, ?_, ?_⟩
  · show weekday (t - weekday t) = 0
    unfold weekday; omega
  · show weekday (t - weekday t - 7) = 0
    unfold weekday; omega
  · intro h
    show t - weekday t = t
    unfold weekday at h ⊢; omega

/-- Witness for C2 at the Monday 2024-01-15 (ordinal 738900). -/
theorem get_monday_dates_correct_witness :
    (get_monday_dates 738900).1 = 738900 :=
  (get_monday_dates_correct 738900).2.2.2.2 (by decide)

/-- C3: for every pair of well-formed dates, `validate_monday_dates`
returns `True` exactly when both dates are Mondays exactly 7 days apart,
and raises a validation error otherwise (either date not a Monday, report
not strictly before snapshot, or gap not exactly 7 days). -/
theorem validate_monday_dates_correct (s r : String) (sd rd : Int)
    (hs : parseAdpDate s = some sd) (hr : parseAdpDate r = some rd) :
    (validate_monday_dates s r = .ok true ↔
      weekday sd = 0 ∧ weekday rd = 0 ∧ sd - rd = 7) ∧
    (¬ (weekday sd = 0 ∧ weekday rd = 0 ∧ sd - rd = 7) →
      ∃ e, validate_monday_dates s r = .error e) := by
  unfold validate_monday_dates
  rw [hs, hr]
  dsimp only
  unfold validate_monday_ordinals
  split_ifs with h1 h2 h3 h4 <;> simp_all
  omega

/-- Witness for C3: the Monday pair (2024-01-15, 2024-01-08) validates;
the Tuesday pair (2024-01-16, 2024-01-09) raises. -/
theorem validate_monday_dates_correct_witness :
    validate_monday_dates "2024-01-15" "2024-01-08" = .ok true ∧
    (∃ e, validate_monday_dates "2024-01-16" "2024-01-09" = .error e) :=
  ⟨(validate_monday_dates_correct "2024-01-15" "2024-01-08" 738900 738893
      (by decide) (by decide)).1.mpr (by decide),
   (validate_monday_dates_correct "2024-01-16" "2024-01-09" 738901 738894
      (by decide) (by decide)).2 (by decide)⟩

/-- C5 (amended): when only the snapshot flag is supplied, the report
date is recomputed as snapshot minus 7 days and Monday-pair validation IS
performed on the resulting pair: a Monday snapshot succeeds with the pair
`(snapshot, snapshot - 7)`, a non-Monday snapshot raises the validation
error. -/
theorem resolve_dates_snapshot_only (s : String) (sd today : Int)
    (hp : parseAdpDate s = some sd) :
    (weekday sd = 0 →
      resolve_pipeline_dates (some s) none today = .ok (sd, sd - 7)) ∧
    (weekday sd ≠ 0 →
      resolve_pipeline_dates (some s) none today =
        .error "Snapshot date is not a Monday") := by
  unfold resolve_pipeline_dates
  dsimp only
  rw [hp]
  dsimp only
  unfold validate_monday_ordinals
  have h7 : weekday (sd - 7) = weekday sd := by unfold weekday; omega
  split_ifs with h1 h2 h3 h4 <;> simp_all [Except.map]

/-- Witness for C5's amended theorem at Monday 2024-01-15 and Tuesday
2024-01-16. -/
theorem resolve_dates_snapshot_only_witness :
    resolve_pipeline_dates (some "2024-01-15") none 0 = .ok (738900, 738893) ∧
    resolve_pipeline_dates (some "2024-01-16") none 0 =
      .error "Snapshot date is not a Monday" := by
  constructor
  · have h := (resolve_dates_snapshot_only "2024-01-15" 738900 0 (by decide)).1 (by decide)
    rw [h]; norm_num
  · exact (resolve_dates_snapshot_only "2024-01-16" 738901 0 (by decide)).2 (by decide)

/-- Counterexample for C5 as stated: with only the snapshot flag set to
the Tuesday 2024-01-16, the orchestrator raises the Monday validation
error instead of proceeding unvalidated with the pair
(2024-01-16, 2024-01-09). -/
theorem resolve_dates_snapshot_only_counterexample :
    resolve_pipeline_dates (some "2024-01-16") none 0 =
      .error "Snapshot date is not a Monday" ∧
    (Except.error "Snapshot date is not a Monday" ≠
      (.ok (738901, 738894) : Except String (Int × Int))) := by
  exact ⟨by decide, by decide⟩

/-- C4: `parse_duration_to_decimal` is total and returns 0 for missing or
empty input; when the (stripped) string splits on `':'` into at least two
parts whose first two parse as integers H and M it returns
`round(H + M/60, 2)`; when there is no `':'` and the string parses as a
float it returns that float; on any parse failure it returns 0. -/
theorem parse_duration_to_decimal_correct (duration : Option String) :
    (duration = none ∨ duration = some "" → parse_duration_to_decimal duration = 0) ∧
    (∀ s h m, duration = some s → s ≠ "" →
      2 ≤ (pySplit ':' (pyStrip s)).length →
      parsePyInt ((pySplit ':' (pyStrip s)).getD 0 "") = some h →
      parsePyInt ((pySplit ':' (pyStrip s)).getD 1 "") = some m →
      parse_duration_to_decimal duration = pyRound2 ((h : ℚ) + (m : ℚ) / 60)) ∧
    (∀ s x, duration = some s → s ≠ "" →
      (pySplit ':' (pyStrip s)).length < 2 →
      parsePyFloat (pyStrip s) = some x →
      parse_duration_to_decimal duration = x) ∧
    (∀ s, duration = some s → s ≠ "" →
      ((2 ≤ (pySplit ':' (pyStrip s)).length ∧
          (parsePyInt ((pySplit ':' (pyStrip s)).getD 0 "") = none ∨
           parsePyInt ((pySplit ':' (pyStrip s)).getD 1 "") = none)) ∨
        ((pySplit ':' (pyStrip s)).length < 2 ∧ parsePyFloat (pyStrip s) = none)) →
      parse_duration_to_decimal duration = 0) := by
  refine ⟨?_, ?_, ?_, ?_⟩
  · rintro (rfl | rfl) <;> simp [parse_duration_to_decimal]
  · rintro s h m rfl hne hlen h0 h1
    simp only [parse_duration_to_decimal, if_neg hne, if_pos hlen, h0, h1]
  · rintro s x rfl hne hlen hf
    have : ¬ 2 ≤ (pySplit ':' (pyStrip s)).length := by omega
    simp only [parse_duration_to_decimal, if_neg hne, if_neg this, hf]
  · rintro s rfl hne hcase
    rcases hcase with ⟨hlen, hfail⟩ | ⟨hlen, hf⟩
    · simp only [parse_duration_to_decimal, if_neg hne, if_pos hlen]
      rcases hfail with h0 | h1
      · rw [h0]
      · rw [h1]
        cases parsePyInt ((pySplit ':' (pyStrip s)).getD 0 "") <;> rfl
    · have : ¬ 2 ≤ (pySplit ':' (pyStrip s)).length := by omega
      simp only [parse_duration_to_decimal, if_neg hne, if_neg this, hf]

/-- Witness for C4: `"1:15" → 1.25`, `"2:30" → 2.5`, `"" → 0`,
`"garbage" → 0`. -/
theorem parse_duration_to_decimal_correct_witness :
    parse_duration_to_decimal (some "1:15") = pyRound2 ((1 : ℚ) + 15 / 60) ∧
    pyRound2 ((1 : ℚ) + 15 / 60) = 5 / 4 ∧
    parse_duration_to_decimal (some "2:30") = pyRound2 ((2 : ℚ) + 30 / 60) ∧
    pyRound2 ((2 : ℚ) + 30 / 60) = 5 / 2 ∧
    parse_duration_to_decimal (some "") = 0 ∧
    parse_duration_to_decimal (some "garbage") = 0 := by
  refine ⟨?_, ?_, ?_, ?_, ?_, ?_⟩
  · exact (parse_duration_to_decimal_correct (some "1:15")).2.1 "1:15" 1 15 rfl
      (by decide) (by decide) (by decide) (by decide)
  · norm_num [pyRound2, roundHalfEven]
  · exact (parse_duration_to_decimal_correct (some "2:30")).2.1 "2:30" 2 30 rfl
      (by decide) (by decide) (by decide) (by decide)
  · norm_num [pyRound2, roundHalfEven]
  · exact (parse_duration_to_decimal_correct (some "")).1 (Or.inr rfl)
  · exact (parse_duration_to_decimal_correct (some "garbage")).2.2.2 "garbage" rfl
      (by decide) (Or.inr ⟨by decide, by decide⟩)

/-- The SQL `WHERE` clause of the headcount query decides exactly the
claim's filter conditions. -/
theorem headcountFilter_iff (excluded : List String) (snap : Int) (r : DFRow) :
    headcountFilter excluded snap r = true ↔ qualifiesSpec excluded snap r := by
  unfold headcountFilter qualifiesSpec
  simp only [Bool.and_eq_true, beq_iff_eq, bne_iff_ne, decide_eq_true_eq]
  constructor
  · rintro ⟨⟨⟨⟨hpos, hfile⟩, hclient⟩, hdate⟩, hsnap⟩
    refine ⟨hpos, hfile, ?_, ?_, hsnap⟩
    · revert hclient
      cases getCol r "client_code" <;> simp [List.contains]
    · revert hdate
      cases hco : coalesceDate (getCol r "rehire_date") (getCol r "hire_date") <;>
        cases hs : getCol r "snapshot_date" <;> simp_all
  · rintro ⟨hpos, hfile, ⟨c, hc, hcmem⟩, ⟨e, sd, hco, hsd, hlt⟩, hsnap⟩
    refine ⟨⟨⟨⟨hpos, hfile⟩, ?_⟩, ?_⟩, hsnap⟩
    · rw [hc]
      simpa [List.contains] using hcmem
    · rw [hco, hsd]
      simpa using hlt

instance (excluded : List String) (snap : Int) (r : DFRow) :
    Decidable (qualifiesSpec excluded snap r) :=
  decidable_of_iff _ (headcountFilter_iff excluded snap r)

/-- C1 (amended): `execute_headcount_calculation` inserts exactly one row
per distinct `(department code, department description)` group - not per
department code alone - among the staging rows satisfying the claim's
filter conditions, keeping groups whose department code is non-null; each
row carries the group's department code, the snapshot and report date
parameters, and the count of distinct non-null `adp_id` values in the
group. -/
theorem headcount_one_row_per_group (bronze : List DFRow) (excluded : List String)
    (snap rep : Int) :
    ((((bronze.filter (fun r => qualifiesSpec excluded snap r)).map rowKey).dedup).Nodup) ∧
    execute_headcount_calculation bronze excluded snap rep =
      ((((bronze.filter (fun r => qualifiesSpec excluded snap r)).map rowKey).dedup).filter
          (fun k => k.1 != Value.vNull)).map (fun k =>
        { department_number := k.1
          snapshot_date := snap
          report_date := rep
          active_count := distinctAdpCount
            ((bronze.filter (fun r => qualifiesSpec excluded snap r)).filter
              (fun r => rowKey r == k)) }) := by
  have hfun : (fun r => decide (qualifiesSpec excluded snap r)) = headcountFilter excluded snap := by
    funext r
    by_cases hq : qualifiesSpec excluded snap r
    · simp [hq, (headcountFilter_iff excluded snap r).mpr hq]
    · have hb : ¬ headcountFilter excluded snap r = true :=
        fun hh => hq ((headcountFilter_iff excluded snap r).mp hh)
      rw [decide_eq_false hq]
      exact ((Bool.not_eq_true _).mp hb).symm
  constructor
  · rw [show (bronze.filter (fun r => qualifiesSpec excluded snap r)) =
        bronze.filter (headcountFilter excluded snap) from by rw [← hfun]]
    exact List.nodup_dedup _
  · unfold execute_headcount_calculation
    rw [show (bronze.filter (fun r => qualifiesSpec excluded snap r)) =
        bronze.filter (headcountFilter excluded snap) from by rw [← hfun]]

/-- Counterexample for C1 as stated: on `c1Staging` the query inserts TWO
rows for the single non-null department code `000001` (the `GROUP BY`
also keys on the department description), each counting 1 distinct
`adp_id`, instead of exactly one row counting 2. -/
theorem headcount_one_row_per_group_counterexample :
    ((execute_headcount_calculation c1Staging ["01100"] 738900 738893).filter
        (fun s => s.department_number == Value.vStr "000001")).length = 2 ∧
    (execute_headcount_calculation c1Staging ["01100"] 738900 738893).map
        (fun s => s.active_count) = [1, 1] := by
  exact ⟨by decide, by decide⟩

/-- C8: when the existing-data check finds rows for the target snapshot
date in either table and `--force` is absent, the run stops with only a
warning: the database is returned unchanged (so both tables' row counts
for that date are unchanged), the trace holds no delete, load or
calculation event, and the outcome is the warning, not a failure. -/
theorem pipeline_guard_no_force (args : PipelineArgs) (today : Int)
    (raw_df : DataFrame) (db : AdpDb) (snap rep : Int)
    (hforce : args.force = false)
    (hres : resolve_pipeline_dates args.snapshot_date args.report_date today = .ok (snap, rep))
    (hstruct : validate_adp_file_structure raw_df = .ok true)
    (hclean : validate_cleaned_data
      (clean_adp_data raw_df (some (formatOrdinal snap)) today) = .ok true)
    (hex : 0 < check_bronze db snap ∨ 0 < check_silver db snap) :
    run_adp_pipeline args today raw_df db =
      (.warnedExisting, db,
       [PipelineEvent.checkedBronze (check_bronze db snap),
        PipelineEvent.checkedSilver (check_silver db snap)]) := by
  unfold run_adp_pipeline
  rw [hres]
  dsimp only
  rw [hstruct]
  dsimp only
  rw [hclean]
  dsimp only
  have hguard : ((decide (check_bronze db snap > 0) || decide (check_silver db snap > 0)) &&
      !args.force) = true := by
    rw [hforce]
    rcases hex with h | h <;> simp [h]
  rw [hguard]
  simp

/-- Witness for C8 on the fixtures: without `--force` the run warns and
leaves the database untouched. -/
theorem pipeline_guard_no_force_witness :
    run_adp_pipeline
        { snapshot_date := some "2024-01-15", report_date := some "2024-01-08",
          force := false, skip_calculation := false } 738902 exRawDf exDb =
      (.warnedExisting, exDb, [.checkedBronze 1, .checkedSilver 1]) := by
  have h := pipeline_guard_no_force
    { snapshot_date := some "2024-01-15", report_date := some "2024-01-08",
      force := false, skip_calculation := false } 738902 exRawDf exDb 738900 738893
    rfl rfl rfl rfl (Or.inl (by decide))
  rw [h]
  decide

/-- C6 (amended): with `--force` and existing rows for the target date in
both tables, the orchestrator deletes the existing SUMMARY (silver) rows
first, THEN the existing staging (bronze) rows - the opposite of the
claimed order - and only then loads the new staging rows; the calculation
step follows unless skipped. -/
theorem pipeline_force_delete_order (args : PipelineArgs) (today : Int)
    (raw_df : DataFrame) (db : AdpDb) (snap rep : Int)
    (hforce : args.force = true)
    (hres : resolve_pipeline_dates args.snapshot_date args.report_date today = .ok (snap, rep))
    (hstruct : validate_adp_file_structure raw_df = .ok true)
    (hclean : validate_cleaned_data
      (clean_adp_data raw_df (some (formatOrdinal snap)) today) = .ok true)
    (hB : 0 < check_bronze db snap) (hS : 0 < check_silver db snap) :
    (run_adp_pipeline args today raw_df db).2.2 =
      [PipelineEvent.checkedBronze (check_bronze db snap),
       PipelineEvent.checkedSilver (check_silver db snap),
       PipelineEvent.deletedSilver snap (check_silver db snap),
       PipelineEvent.deletedBronze snap (check_bronze db snap),
       PipelineEvent.loadedBronze
         (dfRows (clean_adp_data raw_df (some (formatOrdinal snap)) today)).length] ++
      (if args.skip_calculation then []
       else [PipelineEvent.ranCalculation
         (execute_headcount_calculation
           ((delete_bronze (delete_silver db snap) snap).bronze ++
             dfRows (clean_adp_data raw_df (some (formatOrdinal snap)) today))
           adp_excluded_codes snap rep).length]) := by
  unfold run_adp_pipeline
  rw [hres]
  dsimp only
  rw [hstruct]
  dsimp only
  rw [hclean]
  dsimp only
  rw [hforce]
  have hBdec : decide (check_bronze db snap > 0) = true := by simpa using hB
  have hSdec : decide (check_silver db snap > 0) = true := by simpa using hS
  simp only [hBdec, hSdec, Bool.true_and, Bool.and_true, Bool.true_or, Bool.or_true,
    Bool.not_true, Bool.and_false, Bool.false_and, if_true, if_false]
  cases h : args.skip_calculation <;> simp [h, delete_bronze, delete_silver]

/-- Witness for C6's amended theorem on the fixtures: the delete trace is
silver first, then bronze, then the load. -/
theorem pipeline_force_delete_order_witness :
    (run_adp_pipeline
        { snapshot_date := some "2024-01-15", report_date := some "2024-01-08",
          force := true, skip_calculation := true } 738902 exRawDf exDb).2.2 =
      [.checkedBronze 1, .checkedSilver 1, .deletedSilver 738900 1,
       .deletedBronze 738900 1, .loadedBronze 1] := by
  have h := pipeline_force_delete_order
    { snapshot_date := some "2024-01-15", report_date := some "2024-01-08",
      force := true, skip_calculation := true } 738902 exRawDf exDb 738900 738893
    rfl rfl rfl rfl (by decide) (by decide)
  rw [h]
  decide

/-- Counterexample for C6 as stated: on the fixtures the forced run's
delete sub-trace is `[deletedSilver, deletedBronze]` - silver (summary)
rows are deleted BEFORE bronze (staging) rows, not after as claimed. -/
theorem pipeline_force_delete_order_counterexample :
    ((run_adp_pipeline
        { snapshot_date := some "2024-01-15", report_date := some "2024-01-08",
          force := true, skip_calculation := true } 738902 exRawDf exDb).2.2).filter
      isDeleteEvent =
      [.deletedSilver 738900 1, .deletedBronze 738900 1] := by
  decide

/-! ### String lemmas for the department-code transform -/

theorem str_length_mk (l : List Char) : (String.mk l).length = l.length := rfl

theorem str_length_data (s : String) : s.length = s.data.length := rfl

theorem str_mk_data (s : String) : String.mk s.data = s := rfl

theorem pyZfill_of_le (w : Nat) (s : String) (h : w ≤ s.length) : pyZfill w s = s := by
  unfold pyZfill
  rw [if_pos h]

theorem pyTake_length (n : Nat) (s : String) : (pyTake n s).length = min n s.length := by
  unfold pyTake
  rw [str_length_mk, List.length_take, str_length_data]

theorem pyTake_of_le (n : Nat) (s : String) (h : s.length ≤ n) : pyTake n s = s := by
  unfold pyTake
  rw [List.take_of_length_le (by rw [← str_length_data]; omega), str_mk_data]

theorem pyZfill_length (w : Nat) (s : String) : (pyZfill w s).length = max w s.length := by
  unfold pyZfill
  split_ifs with h
  · omega
  · cases hd : s.data with
    | nil =>
      have h0 : s.length = 0 := by rw [str_length_data, hd]; rfl
      simp [str_length_mk, h0]
    | cons c rest =>
      have hlen : s.length = rest.length + 1 := by rw [str_length_data, hd]; rfl
      dsimp only
      split_ifs with hc
      · simp only [str_length_mk, List.length_cons, List.length_append,
          List.length_replicate]
        omega
      · simp only [str_length_mk, List.length_append, List.length_replicate, hd,
          List.length_cons]
        omega

theorem deptCleanStr_of_lt (s : String) (h : s.length < 6) :
    deptCleanStr s = pyZfill 6 s := by
  unfold deptCleanStr
  have h1 : (pyZfill 6 s).length = 6 := by rw [pyZfill_length]; omega
  rw [pyTake_of_le 6 _ (by omega), pyZfill_of_le 6 _ (by omega)]

theorem deptCleanStr_of_eq (s : String) (h : s.length = 6) : deptCleanStr s = s := by
  unfold deptCleanStr
  rw [pyZfill_of_le 6 s (by omega), pyTake_of_le 6 s (by omega),
    pyZfill_of_le 6 s (by omega)]

theorem deptCleanStr_of_gt (s : String) (h : 6 < s.length) :
    deptCleanStr s = pyTake 6 s := by
  unfold deptCleanStr
  rw [pyZfill_of_le 6 s (by omega)]
  have ht : (pyTake 6 s).length = 6 := by rw [pyTake_length]; omega
  rw [pyZfill_of_le 6 _ (by omega)]

theorem deptCleanStr_length (s : String) : (deptCleanStr s).length = 6 := by
  rcases lt_trichotomy s.length 6 with h | h | h
  · rw [deptCleanStr_of_lt s h, pyZfill_length]; omega
  · rw [deptCleanStr_of_eq s h]; omega
  · rw [deptCleanStr_of_gt s h, pyTake_length]; omega

theorem pyZfill_of_lt_no_sign (s : String) (h : s.length < 6)
    (hsign : ∀ c ∈ s.data.head?, c ≠ '+' ∧ c ≠ '-') :
    pyZfill 6 s = String.mk (List.replicate (6 - s.length) '0' ++ s.data) := by
  unfold pyZfill
  rw [if_neg (by omega)]
  cases hd : s.data with
  | nil =>
    have h0 : s.length = 0 := by rw [str_length_data, hd]; rfl
    simp [h0]
  | cons c rest =>
    have hc := hsign c (by rw [hd]; rfl)
    dsimp only
    rw [if_neg (by tauto)]

theorem pyZfill_of_lt_sign (c : Char) (rest : List Char) (h : rest.length + 1 < 6)
    (hc : c = '+' ∨ c = '-') :
    pyZfill 6 (String.mk (c :: rest)) =
      String.mk (c :: (List.replicate (6 - (rest.length + 1)) '0' ++ rest)) := by
  unfold pyZfill
  rw [if_neg (by rw [str_length_mk]; simpa using by omega)]
  simp only [str_length_mk, List.length_cons]
  rw [if_pos hc]

/-! ### Column lemmas for `clean_adp_data` -/

theorem filter_map_of_name_preserving (g : DFCol → DFCol) (p : DFCol → Bool)
    (df : DataFrame) (hg : ∀ c, p (g c) = p c) :
    (df.map g).filter p = (df.filter p).map g := by
  induction df with
  | nil => rfl
  | cons c tl ih =>
    simp only [List.map_cons, List.filter_cons, hg c]
    cases hp : p c <;> simp [ih]

theorem colVals_map_eq (g : DFCol → DFCol) (m : String) (df : DataFrame)
    (hg : ∀ c, (g c).1 = c.1) :
    colVals (df.map g) m = (df.filter (fun c => c.1 = m)).map (fun c => (g c).2) := by
  unfold colVals
  rw [filter_map_of_name_preserving g _ df (fun c => by simp [hg c]), List.map_map]
  rfl

theorem colVals_mapColNamed_self (n : String) (f : Value → Value) (df : DataFrame) :
    colVals (mapColNamed n f df) n = (colVals df n).map (List.map f) := by
  unfold mapColNamed
  rw [colVals_map_eq _ n df (fun c => by by_cases hc : c.1 = n <;> simp [hc])]
  unfold colVals
  rw [List.map_map]
  refine List.map_congr_left (fun c hc => ?_)
  have := (List.mem_filter.mp hc).2
  simp only [decide_eq_true_eq] at this
  simp [this]

theorem colVals_mapColNamed_ne (n m : String) (f : Value → Value) (df : DataFrame)
    (h : m ≠ n) :
    colVals (mapColNamed n f df) m = colVals df m := by
  unfold mapColNamed
  rw [colVals_map_eq _ m df (fun c => by by_cases hc : c.1 = n <;> simp [hc])]
  unfold colVals
  refine List.map_congr_left (fun c hc => ?_)
  have := (List.mem_filter.mp hc).2
  simp only [decide_eq_true_eq] at this
  have hcn : ¬ c.1 = n := by rw [this]; exact h
  simp [hcn]

theorem colVals_setColStep_ne (n m : String) (v : Value) (df : DataFrame)
    (h : m ≠ n) :
    colVals (setColStep n v df) m = colVals df m := by
  unfold setColStep
  split_ifs with hp
  · rw [colVals_map_eq _ m df (fun c => by by_cases hc : c.1 = n <;> simp [hc])]
    unfold colVals
    refine List.map_congr_left (fun c hc => ?_)
    have := (List.mem_filter.mp hc).2
    simp only [decide_eq_true_eq] at this
    have hcn : ¬ c.1 = n := by rw [this]; exact h
    simp [hcn]
  · have hnm : ¬ n = m := fun hh => h hh.symm
    simp [colVals, List.filter_append, hnm]

theorem colVals_dateCoerceStep_dept (df : DataFrame) :
    colVals (dateCoerceStep df) "home_department_code" =
      colVals df "home_department_code" := by
  simp only [dateCoerceStep, adp_date_columns, List.foldl_cons, List.foldl_nil]
  rw [colVals_mapColNamed_ne _ _ _ _ (by decide), colVals_mapColNamed_ne _ _ _ _ (by decide),
    colVals_mapColNamed_ne _ _ _ _ (by decide), colVals_mapColNamed_ne _ _ _ _ (by decide),
    colVals_mapColNamed_ne _ _ _ _ (by decide)]

theorem colVals_intCoerceStep_dept (df : DataFrame) :
    colVals (intCoerceStep df) "home_department_code" =
      colVals df "home_department_code" := by
  simp only [intCoerceStep, adp_integer_columns, List.foldl_cons, List.foldl_nil]
  rw [colVals_mapColNamed_ne _ _ _ _ (by decide), colVals_mapColNamed_ne _ _ _ _ (by decide)]

/-- C7 (amended): after `clean_adp_data`, every cell of the
`home_department_code` column is the string of the corresponding
post-rename input cell put through `zfill(6)`, truncate-to-6, `zfill(6)` -
so every value is exactly 6 characters: length-6 values are unchanged,
longer values are truncated to their first 6 characters, and shorter
values are zero-filled to 6 with the zeros inserted AFTER a leading
`'+'`/`'-'` sign when one is present (Python `zfill`), not plainly
left-padded. -/
theorem clean_dept_codes (df : DataFrame) (snap : Option String) (today : Int) :
    (colVals (clean_adp_data df snap today) "home_department_code" =
      (colVals (renameStep (dropStep (stripStep df))) "home_department_code").map
        (List.map (fun v => Value.vStr (deptCleanStr (pyStr v))))) ∧
    (∀ s : String, (deptCleanStr s).length = 6) ∧
    (∀ s : String, s.length = 6 → deptCleanStr s = s) ∧
    (∀ s : String, 6 < s.length → deptCleanStr s = pyTake 6 s) ∧
    (∀ s : String, s.length < 6 → (∀ c ∈ s.data.head?, c ≠ '+' ∧ c ≠ '-') →
      deptCleanStr s = String.mk (List.replicate (6 - s.length) '0' ++ s.data)) ∧
    (∀ (c : Char) (rest : List Char), rest.length + 1 < 6 → (c = '+' ∨ c = '-') →
      deptCleanStr (String.mk (c :: rest)) =
        String.mk (c :: (List.replicate (6 - (rest.length + 1)) '0' ++ rest))) := by
  refine ⟨?_, deptCleanStr_length, deptCleanStr_of_eq, deptCleanStr_of_gt, ?_, ?_⟩
  · unfold clean_adp_data deptTruncPadStep deptPadStep
    rw [colVals_mapColNamed_self, colVals_intCoerceStep_dept, colVals_dateCoerceStep_dept,
      colVals_setColStep_ne _ _ _ _ (by decide), colVals_mapColNamed_self, List.map_map]
    refine List.map_congr_left (fun vs _ => ?_)
    simp only [Function.comp_apply, List.map_map]
    rfl
  · intro s h hsign
    rw [deptCleanStr_of_lt s h, pyZfill_of_lt_no_sign s h hsign]
  · intro c rest h hc
    rw [deptCleanStr_of_lt _ (by rw [str_length_mk]; simpa using h),
      pyZfill_of_lt_sign c rest h hc]

/-- Witness for C7's amended theorem: `"654321"` is unchanged,
`"7654321"` truncates to `"765432"`, `"123"` pads to `"000123"`, and the
signed `"-12"` zero-fills to `"-00012"`. -/
theorem clean_dept_codes_witness :
    deptCleanStr "654321" = "654321" ∧
    deptCleanStr "7654321" = pyTake 6 "7654321" ∧ pyTake 6 "7654321" = "765432" ∧
    deptCleanStr "123" = String.mk (List.replicate (6 - "123".length) '0' ++ "123".data) ∧
    String.mk (List.replicate (6 - "123".length) '0' ++ "123".data) = "000123" ∧
    deptCleanStr (String.mk ('-' :: ['1', '2'])) =
      String.mk ('-' :: (List.replicate (6 - (['1', '2'].length + 1)) '0' ++ ['1', '2'])) ∧
    String.mk ('-' :: (List.replicate (6 - (['1', '2'].length + 1)) '0' ++ ['1', '2'])) =
      "-00012" := by
  refine ⟨?_, ?_, by decide, ?_, by decide, ?_, by decide⟩
  · exact (clean_dept_codes [] none 0).2.2.1 "654321" (by decide)
  · exact (clean_dept_codes [] none 0).2.2.2.1 "7654321" (by decide)
  · exact (clean_dept_codes [] none 0).2.2.2.2.1 "123" (by decide) (by decide)
  · exact (clean_dept_codes [] none 0).2.2.2.2.2 '-' ['1', '2'] (by decide) (by decide)

/-- Counterexample for C7 as stated: the short signed value `"-12"` comes
out as `"-00012"`, not the plain left-padding `"000-12"`. -/
theorem clean_dept_codes_counterexample :
    colVals (clean_adp_data [("home_department_code", [Value.vStr "-12"])]
        (some "2024-01-15") 738902) "home_department_code" =
      [[Value.vStr "-00012"]] ∧
    Value.vStr "-00012" ≠
      Value.vStr (String.mk (List.replicate (6 - "-12".length) '0' ++ "-12".data)) := by
  exact ⟨by decide, by decide⟩

/-! ### Rounding and summation lemmas for the billing report -/

theorem roundHalfEven_intCast (k : Int) : roundHalfEven (k : ℚ) = k := by
  unfold roundHalfEven
  rw [Int.floor_intCast]
  norm_num

theorem pyRound2_int_div (k : Int) : pyRound2 ((k : ℚ) / 100) = (k : ℚ) / 100 := by
  unfold pyRound2
  rw [div_mul_cancel₀ _ (by norm_num : (100 : ℚ) ≠ 0), roundHalfEven_intCast]

theorem sumOpt_map_getD (l : List (Option ℚ)) :
    sumOpt l = (l.map (fun o => o.getD 0)).sum := by
  induction l with
  | nil => rfl
  | cons o tl ih =>
    unfold sumOpt at ih ⊢
    cases o <;> simp [List.filterMap_cons, ih]

theorem sumOpt_amount (l : List BilledRow) :
    sumOpt (l.map (fun b => b.amount)) = (l.map (fun b => b.amount.getD 0)).sum := by
  rw [sumOpt_map_getD, List.map_map]
  rfl

theorem sum_map_filter_add_not {α : Type} (l : List α) (p : α → Bool) (f : α → ℚ) :
    ((l.filter p).map f).sum + ((l.filter (fun x => !p x)).map f).sum = (l.map f).sum := by
  induction l with
  | nil => simp
  | cons a tl ih =>
    cases hp : p a <;> simp [List.filter_cons, hp, ← ih] <;> ring

theorem sum_fiberwise {α β : Type} [DecidableEq β] (keys : List β) (l : List α)
    (key : α → β) (f : α → ℚ) (hnd : keys.Nodup) (hcov : ∀ x ∈ l, key x ∈ keys) :
    (keys.map (fun k => ((l.filter (fun x => key x = k)).map f).sum)).sum =
      (l.map f).sum := by
  induction keys generalizing l with
  | nil =>
    have hl : l = [] := List.eq_nil_iff_forall_not_mem.mpr (fun x hx => by simpa using hcov x hx)
    subst hl
    simp
  | cons k ks ih =>
    simp only [List.map_cons, List.sum_cons]
    have hnotmem : k ∉ ks := (List.nodup_cons.mp hnd).1
    have hfib : ∀ k' ∈ ks,
        ((l.filter (fun x => key x = k')).map f).sum =
          (((l.filter (fun x => !(decide (key x = k)))).filter
            (fun x => key x = k')).map f).sum := by
      intro k' hk'
      rw [List.filter_filter]
      refine congrArg _ (congrArg _ ?_)
      refine (List.filter_congr (fun x _ => ?_)).symm
      by_cases hx : key x = k'
      · have hkk : k' ≠ k := fun hh => hnotmem (hh ▸ hk')
        have hxk : ¬ key x = k := fun hh => hkk (by rw [← hx, hh])
        simp [hx, hxk, hkk]
      · simp [hx]
    rw [List.map_congr_left hfib,
      ih (l.filter (fun x => !(decide (key x = k)))) (List.nodup_cons.mp hnd).2
        (fun x hx => by
          have hmem := List.mem_filter.mp hx
          have hkey := hcov x hmem.1
          have : ¬ key x = k := by simpa using hmem.2
          simpa [this] using hkey)]
    exact sum_map_filter_add_not l (fun x => decide (key x = k)) f

theorem sum_int_div_100 (l : List ℚ) (h : ∀ x ∈ l, ∃ k : Int, x = (k : ℚ) / 100) :
    ∃ K : Int, l.sum = (K : ℚ) / 100 := by
  induction l with
  | nil => exact ⟨0, by simp⟩
  | cons a tl ih =>
    obtain ⟨k, hk⟩ := h a (List.mem_cons_self a tl)
    obtain ⟨K, hK⟩ := ih (fun x hx => h x (List.mem_cons_of_mem a hx))
    refine ⟨k + K, ?_⟩
    rw [List.sum_cons, hk, hK]
    push_cast
    ring

/-- C9: every row's amount is its billable hours times its billing rate
rounded to 2 decimals, and the grand total (the sum of all row amounts)
equals the sum of the per-client aggregate amounts of the summary
report's group-by. -/
theorem billing_amounts_consistent (rows : List BillingRow) (rates : List (String × ℚ)) :
    (∀ b ∈ calculate_billing_amounts rows rates, ∀ ra, b.billingRate = some ra →
      b.amount = some (pyRound2 (b.billableHours * ra))) ∧
    grand_total_amount (calculate_billing_amounts rows rates) =
      ((total_by_client (calculate_billing_amounts rows rates)).map (fun p => p.2)).sum := by
  constructor
  · rintro b hb ra hra
    obtain ⟨r, _, rfl⟩ := List.mem_map.mp hb
    dsimp only at hra ⊢
    rw [hra]
    rfl
  · set billed := calculate_billing_amounts rows rates with hbilled
    have hform : ∀ b ∈ billed, ∃ k : Int, b.amount.getD 0 = (k : ℚ) / 100 := by
      intro b hb
      obtain ⟨r, _, rfl⟩ := List.mem_map.mp hb
      dsimp only
      cases rates.lookup r.client with
      | none => exact ⟨0, by simp⟩
      | some ra =>
        refine ⟨roundHalfEven (r.billableHours * ra * 100), ?_⟩
        simp [pyRound2]
    have hgroup : ∀ c : String,
        pyRound2 (sumOpt ((billed.filter (fun b => b.client = c)).map (fun b => b.amount))) =
          sumOpt ((billed.filter (fun b => b.client = c)).map (fun b => b.amount)) := by
      intro c
      rw [sumOpt_amount]
      obtain ⟨K, hK⟩ := sum_int_div_100
        ((billed.filter (fun b => b.client = c)).map (fun b => b.amount.getD 0))
        (fun x hx => by
          obtain ⟨b, hb, rfl⟩ := List.mem_map.mp hx
          exact hform b (List.mem_of_mem_filter hb))
      rw [hK, pyRound2_int_div]
    unfold total_by_client
    rw [List.map_map]
    have hmapped :
        ((billed.map (fun b => b.client)).dedup).map
            ((fun p : String × ℚ => p.2) ∘ (fun c =>
              (c, pyRound2 (sumOpt ((billed.filter (fun b => b.client = c)).map
                (fun b => b.amount)))))) =
          ((billed.map (fun b => b.client)).dedup).map (fun c =>
            sumOpt ((billed.filter (fun b => b.client = c)).map (fun b => b.amount))) :=
      List.map_congr_left (fun c _ => hgroup c)
    rw [hmapped]
    have hsums :
        ((billed.map (fun b => b.client)).dedup).map (fun c =>
            sumOpt ((billed.filter (fun b => b.client = c)).map (fun b => b.amount))) =
          ((billed.map (fun b => b.client)).dedup).map (fun c =>
            ((billed.filter (fun b => b.client = c)).map (fun b => b.amount.getD 0)).sum) :=
      List.map_congr_left (fun c _ => sumOpt_amount _)
    rw [hsums]
    rw [sum_fiberwise ((billed.map (fun b => b.client)).dedup) billed
      (fun b => b.client) (fun b => b.amount.getD 0) (List.nodup_dedup _)
      (fun b hb => List.mem_dedup.mpr (List.mem_map_of_mem _ hb))]
    rw [grand_total_amount, sumOpt_amount]

/-- Witness for C9 at one concrete billed row: client Acme, 2.5 hours at
rate 100. -/
theorem billing_amounts_consistent_witness :
    ({ client := "Acme", billableHours := (5 : ℚ) / 2, billingRate := some 100,
       amount := some (pyRound2 ((5 : ℚ) / 2 * 100)) } : BilledRow).amount =
      some (pyRound2 (((5 : ℚ) / 2) * 100)) :=
  (billing_amounts_consistent [{ client := "Acme", billableHours := (5 : ℚ) / 2 }]
      [("Acme", 100)]).1 _ (List.mem_singleton.mpr rfl) 100 rfl

/-! ### Heap frame property of `clean_adp_data` -/

theorem length_setRef (st : Store) (i : Nat) (df : DataFrame) :
    (setRef st i df).length = st.length := List.length_set st i df

theorem getElem?_setRef_ne (st : Store) (i j : Nat) (df : DataFrame) (h : i ≠ j) :
    (setRef st i df)[j]? = st[j]? := List.getElem?_set_ne h

theorem getRef_setRef_self (st : Store) (i : Nat) (df : DataFrame) (h : i < st.length) :
    getRef (setRef st i df) i = df := by
  unfold getRef setRef
  rw [List.getD_eq_getElem?_getD, List.getElem?_set_self h]
  rfl

/-- C10: replaying `clean_adp_data` over an explicit object store - the
`df.copy()` allocates a fresh reference and every in-place step writes
through that reference only - leaves the caller's DataFrame untouched:
after the call the input reference still holds exactly the original
columns and cell values, while the returned reference holds the cleaned
frame computed from the input. -/
theorem clean_adp_data_heap_preserves (st : Store) (r : Nat) (snap : Option String)
    (today : Int) (df : DataFrame) (h : st[r]? = some df) :
    ((clean_adp_data_heap st r snap today).1)[r]? = some df ∧
    getRef (clean_adp_data_heap st r snap today).1
        (clean_adp_data_heap st r snap today).2 =
      clean_adp_data df snap today := by
  have hr : r < st.length := by
    by_contra hcon
    rw [List.getElem?_eq_none (by omega)] at h
    cases h
  have hne : st.length ≠ r := by omega
  have hgetr : getRef st r = df := by
    unfold getRef
    rw [List.getD_eq_getElem?_getD, h]
    rfl
  have hget1 : getRef (st ++ [getRef st r]) st.length = df := by
    unfold getRef
    rw [List.getD_eq_getElem?_getD, List.getElem?_concat_length]
    exact hgetr
  have hlen1 : st.length < (st ++ [getRef st r]).length := by
    rw [List.length_append]
    simp
  constructor
  · show ((clean_adp_data_heap st r snap today).1)[r]? = some df
    unfold clean_adp_data_heap
    dsimp only
    rw [getElem?_setRef_ne _ _ _ _ hne, getElem?_setRef_ne _ _ _ _ hne,
      getElem?_setRef_ne _ _ _ _ hne, getElem?_setRef_ne _ _ _ _ hne,
      getElem?_setRef_ne _ _ _ _ hne, getElem?_setRef_ne _ _ _ _ hne,
      getElem?_setRef_ne _ _ _ _ hne, getElem?_setRef_ne _ _ _ _ hne,
      List.getElem?_append_left hr]
    exact h
  · unfold clean_adp_data_heap
    dsimp only
    rw [getRef_setRef_self _ _ _ (by simp only [length_setRef, List.length_append, List.length_singleton]; omega),
      getRef_setRef_self _ _ _ (by simp only [length_setRef, List.length_append, List.length_singleton]; omega),
      getRef_setRef_self _ _ _ (by simp only [length_setRef, List.length_append, List.length_singleton]; omega),
      getRef_setRef_self _ _ _ (by simp only [length_setRef, List.length_append, List.length_singleton]; omega),
      getRef_setRef_self _ _ _ (by simp only [length_setRef, List.length_append, List.length_singleton]; omega),
      getRef_setRef_self _ _ _ (by simp only [length_setRef, List.length_append, List.length_singleton]; omega),
      getRef_setRef_self _ _ _ (by simp only [length_setRef, List.length_append, List.length_singleton]; omega),
      getRef_setRef_self _ _ _ (by simp only [length_setRef, List.length_append, List.length_singleton]; omega),
      hget1]
    rfl

/-- Witness for C10: a one-frame store; the input slot is unchanged and
the new slot holds the cleaned frame. -/
theorem clean_adp_data_heap_preserves_witness :
    (((clean_adp_data_heap [[("A", [Value.vStr " x "])]] 0 (some "2024-01-15") 738902).1)[0]? =
      some [("A", [Value.vStr " x "])]) ∧
    getRef (clean_adp_data_heap [[("A", [Value.vStr " x "])]] 0 (some "2024-01-15") 738902).1
        (clean_adp_data_heap [[("A", [Value.vStr " x "])]] 0 (some "2024-01-15") 738902).2 =
      clean_adp_data [("A", [Value.vStr " x "])] (some "2024-01-15") 738902 :=
  clean_adp_data_heap_preserves [[("A", [Value.vStr " x "])]] 0 (some "2024-01-15") 738902
    [("A", [Value.vStr " x "])] rfl

end DataPlatform
